import Mathlib

/-!
Verification of the `QuestionInput` React component
(`src/frontend/src/components/QuestionInput/QuestionInput.tsx`, together
with an earlier revision of the same component).  The component keeps five
pieces of React state — `question`, `base64Image`, `isUploading`,
`uploadError`, `uploadedFile` — and exposes the operations `sendQuestion`,
`handleFileUpload`, `handleImageUpload` and `onQuestionChange`.  The
stateful TypeScript code is embedded here as pure Lean functions over an
explicit state record; the asynchronous external collaborators
(`processDocumentWithAI`, `resizeImage`) are represented by their
outcomes, passed in as arguments.
-/

namespace QuestionInput

/-- The `enhanced_content` object inside the value returned by the
external collaborator `processDocumentWithAI`. -/
structure EnhancedContent where
  summary : String
  original_text : String
deriving DecidableEq, Repr

/-- The document object returned by `processDocumentWithAI`. -/
structure ProcessedDocument where
  filename : String
  enhanced_content : EnhancedContent
deriving DecidableEq, Repr

/-- The value stored in the `uploadedFile` state variable:
`{...processedDocument, display_summary: ..., full_content: ...}`.
Only the fields the component reads are modelled. -/
structure UploadedFile where
  filename : String
  display_summary : String
  full_content : String
deriving DecidableEq, Repr

/-- The component's React state: `question`, `base64Image`, `isUploading`,
`uploadError`, `uploadedFile`.  JavaScript `null` is `none`. -/
structure QIState where
  question : String
  base64Image : Option String
  isUploading : Bool
  uploadError : Option String
  uploadedFile : Option UploadedFile
deriving DecidableEq, Repr

/-- One element of a multimodal message-content array. -/
inductive ContentPart where
  | text : String → ContentPart
  | image_url : String → ContentPart
deriving DecidableEq, Repr

/-- The `ChatMessage` content value passed to `onSend`: either a plain
string or an ordered array of content parts. -/
inductive MessageContent where
  | str : String → MessageContent
  | parts : List ContentPart → MessageContent
deriving DecidableEq, Repr

/-- A record of one invocation of the `onSend` callback.
`conversationArg = some id` means the callback received the two arguments
`(payload, id)`; `conversationArg = none` means it received the single
argument `payload`. -/
structure DispatchCall where
  payload : MessageContent
  conversationArg : Option String
deriving DecidableEq, Repr

/-- Truthiness of a JavaScript `string | undefined` value: `undefined`
and the empty string are falsy, every other string is truthy. -/
def jsTruthyStr : Option String → Bool
  | some s => !(s == "")
  | none => false

/-- JavaScript `v || ''` for `v : string | undefined`. -/
def jsOrEmpty : Option String → String
  | some v => if v == "" then "" else v
  | none => ""

/-- JavaScript `String.prototype.trim`: strips whitespace from both ends
of the string.  Implemented structurally over the character list so that
it evaluates by kernel reduction. -/
def jsTrim (s : String) : String :=
  String.mk (((s.data.dropWhile Char.isWhitespace).reverse.dropWhile
    Char.isWhitespace).reverse)

/-- The guard `disabled || (!question.trim() && !uploadedFile)`, used both
as the `sendQuestionDisabled` render flag and as the early-return test at
the top of `sendQuestion`. -/
def sendQuestionDisabled (disabled : Bool) (s : QIState) : Bool :=
  disabled || (jsTrim s.question == "" && s.uploadedFile.isNone)

/-- The `questionContent` local of `sendQuestion`: with an uploaded file
it is the template
`File: ${filename}\n\n${full_content}\n\nUser Question: ${question}`,
otherwise the raw draft text. -/
def questionContentOf (s : QIState) : String :=
  match s.uploadedFile with
  | some f =>
      "File: " ++ f.filename ++ "\n\n" ++ f.full_content ++
        "\n\nUser Question: " ++ s.question
  | none => s.question

/-- The `questionTest` ternary `base64Image ? [textPart, imagePart] :
questionContent`: the condition is JS truthiness of `base64Image`, so
`null` and the empty string both select the plain-string branch. -/
def questionTestOf (s : QIState) : MessageContent :=
  match s.base64Image with
  | some img =>
      if img == "" then MessageContent.str (questionContentOf s)
      else
        MessageContent.parts
          [ContentPart.text (questionContentOf s), ContentPart.image_url img]
  | none => MessageContent.str (questionContentOf s)

/-- `sendQuestion` of the current revision
(`src/frontend/src/components/QuestionInput/QuestionInput.tsx`).  Returns
the `onSend` invocation performed (if any) and the post-state.  The
conjunct `questionTest !== undefined` of the dispatch condition is
modelled by `&& true`, since `questionTest` is always defined. -/
def sendQuestion (disabled clearOnSend : Bool) (conversationId : Option String)
    (s : QIState) : Option DispatchCall × QIState :=
  if sendQuestionDisabled disabled s then
    (none, s)
  else
    let questionTest : MessageContent := questionTestOf s
    let call : DispatchCall :=
      if jsTruthyStr conversationId && true then
        { payload := questionTest, conversationArg := conversationId }
      else
        { payload := questionTest, conversationArg := none }
    let s2 : QIState :=
      if clearOnSend then
        { s with question := "", uploadedFile := none, base64Image := none }
      else s
    (some call, s2)

/-- `sendQuestion` of the earlier revision (`src/unnamed/part_000`):
`questionTest` is always the plain string `questionContent`, and the
clear-on-send block does not reset `base64Image`. -/
def sendQuestionV2 (disabled clearOnSend : Bool) (conversationId : Option String)
    (s : QIState) : Option DispatchCall × QIState :=
  if sendQuestionDisabled disabled s then
    (none, s)
  else
    let questionTest : MessageContent := MessageContent.str (questionContentOf s)
    let call : DispatchCall :=
      if jsTruthyStr conversationId && true then
        { payload := questionTest, conversationArg := conversationId }
      else
        { payload := questionTest, conversationArg := none }
    let s2 : QIState :=
      if clearOnSend then
        { s with question := "", uploadedFile := none }
      else s
    (some call, s2)

/-- A JavaScript value thrown by an external collaborator: either an
`Error` object carrying a message, or any other thrown value. -/
inductive JsError where
  | errorObj : String → JsError
  | nonError : JsError
deriving DecidableEq, Repr

/-- The expression
`error instanceof Error ? error.message : 'Document processing failed'`
of the `catch` block of `handleFileUpload`. -/
def jsErrorMessage : JsError → String
  | JsError.errorObj m => m
  | JsError.nonError => "Document processing failed"

/-- The synchronous prefix of `handleFileUpload`, up to the `await` of
`processDocumentWithAI`: if no file was selected it returns immediately;
otherwise it sets `isUploading` and clears `uploadError`.  The returned
flag records whether `processDocumentWithAI` is invoked. -/
def handleFileUploadStart (filePresent : Bool) (s : QIState) : QIState × Bool :=
  if filePresent then
    ({ s with isUploading := true, uploadError := none }, true)
  else
    (s, false)

/-- The continuation of `handleFileUpload` after `processDocumentWithAI`
settles: on success the `try` block stores the processed document into
`uploadedFile`; on failure the `catch` block stores the error message into
`uploadError`; the `finally` block resets `isUploading`. -/
def handleFileUploadFinish (result : Except JsError ProcessedDocument)
    (s : QIState) : QIState :=
  match result with
  | Except.ok doc =>
      { s with
        uploadedFile := some
          { filename := doc.filename
            display_summary := doc.enhanced_content.summary
            full_content := doc.enhanced_content.original_text }
        isUploading := false }
  | Except.error e =>
      { s with uploadError := some (jsErrorMessage e), isUploading := false }

/-- `convertToBase64`: on success stores the resized image; the `catch`
block only logs, leaving the state unchanged. -/
def convertToBase64 (result : Except JsError String) (s : QIState) : QIState :=
  match result with
  | Except.ok resized => { s with base64Image := some resized }
  | Except.error _ => s

/-- `handleImageUpload`: if a file was selected, run `convertToBase64` on
the outcome of `resizeImage`; otherwise do nothing. -/
def handleImageUpload (file : Option (Except JsError String)) (s : QIState) :
    QIState :=
  match file with
  | some r => convertToBase64 r s
  | none => s

/-- `onQuestionChange`: `setQuestion(newValue || '')`. -/
def onQuestionChange (newValue : Option String) (s : QIState) : QIState :=
  { s with question := jsOrEmpty newValue }

/-- One observable operation step of the component, for the temporal
claims.  `uploadStart` carries whether a file was selected;
`uploadFinish` carries the outcome of `processDocumentWithAI`;
`attachImage` carries the selected file's resize outcome, if any. -/
inductive Op where
  | edit : Option String → Op
  | attachImage : Option (Except JsError String) → Op
  | uploadStart : Bool → Op
  | uploadFinish : Except JsError ProcessedDocument → Op
  | send : Op

/-- The state transition performed by one operation step, given the
component's props. -/
def step (disabled clearOnSend : Bool) (conversationId : Option String) :
    Op → QIState → QIState
  | Op.edit v, s => onQuestionChange v s
  | Op.attachImage f, s => handleImageUpload f s
  | Op.uploadStart fp, s => (handleFileUploadStart fp s).1
  | Op.uploadFinish r, s => handleFileUploadFinish r s
  | Op.send, s => (sendQuestion disabled clearOnSend conversationId s).2

/-- The text carried by a message content value: the string itself for a
plain string, the text of the leading text part for a parts array. -/
def textOfContent : MessageContent → Option String
  | MessageContent.str t => some t
  | MessageContent.parts (ContentPart.text t :: _) => some t
  | MessageContent.parts _ => none

/-- Concrete state with an attached document, used by witnesses. -/
def sFile : QIState :=
  { question := "what is this?", base64Image := none, isUploading := false,
    uploadError := none,
    uploadedFile := some
      { filename := "a.txt", display_summary := "sum", full_content := "hello" } }

/-- Concrete state with untrimmed draft text and no attachments. -/
def sPlain : QIState :=
  { question := " hi ", base64Image := none, isUploading := false,
    uploadError := none, uploadedFile := none }

/-- Concrete state whose draft trims to empty, with an image attached and
a stale upload error. -/
def sBlank : QIState :=
  { question := "   ", base64Image := some "img", isUploading := false,
    uploadError := some "old", uploadedFile := none }

/-- Concrete state with an attached image. -/
def sImg : QIState :=
  { question := "hi", base64Image := some "data:image", isUploading := false,
    uploadError := none, uploadedFile := none }

/-- Concrete state whose attached image is the empty string, which JS
truthiness treats like no image. -/
def sImgEmpty : QIState :=
  { question := "hi", base64Image := some "", isUploading := false,
    uploadError := none, uploadedFile := none }

/-- Concrete state carrying a set upload error. -/
def sErr : QIState :=
  { question := "", base64Image := none, isUploading := false,
    uploadError := some "boom", uploadedFile := none }

/-- Helper: when the guard passes, the `onSend` invocation of the current
revision carries the payload determined by `base64Image` and a second
argument exactly when `conversationId` is truthy. -/
theorem sendQuestion_fst_eq (d c : Bool) (cid : Option String) (s : QIState)
    (hg : sendQuestionDisabled d s = false) :
    (sendQuestion d c cid s).1 = some
      { payload := questionTestOf s,
        conversationArg := if jsTruthyStr cid then cid else none } := by
  simp only [sendQuestion, hg, Bool.false_eq_true, if_false, Bool.and_true]
  split <;> simp [*]

/-- Helper: when the guard passes, the post-state of the current revision
is the cleared state under clear-on-send and the unchanged state
otherwise. -/
theorem sendQuestion_snd_eq (d c : Bool) (cid : Option String) (s : QIState)
    (hg : sendQuestionDisabled d s = false) :
    (sendQuestion d c cid s).2 =
      if c then { s with question := "", uploadedFile := none, base64Image := none }
      else s := by
  simp only [sendQuestion, hg, Bool.false_eq_true, if_false]

/-- Helper: `sendQuestion` never modifies the `uploadError` field. -/
theorem sendQuestion_preserves_uploadError (d c : Bool) (cid : Option String)
    (s : QIState) :
    (sendQuestion d c cid s).2.uploadError = s.uploadError := by
  by_cases hg : sendQuestionDisabled d s = true
  · simp [sendQuestion, hg]
  · rw [Bool.not_eq_true] at hg
    rw [sendQuestion_snd_eq d c cid s hg]
    by_cases hc : c = true <;> simp [hc]

/-- C1: for every state with an attached document `{filename, full_content}`
and any draft text (including empty or untrimmed), compose-and-send
assembles the outbound text as the exact concatenation
`"File: " ++ filename ++ "\n\n" ++ fullText ++ "\n\nUser Question: " ++ draft`. -/
theorem sendQuestion_assembles_file_text (d c : Bool) (cid : Option String)
    (s : QIState) (f : UploadedFile)
    (hd : d = false) (hf : s.uploadedFile = some f) :
    ∃ call, (sendQuestion d c cid s).1 = some call ∧
      textOfContent call.payload =
        some ("File: " ++ f.filename ++ "\n\n" ++ f.full_content ++
          "\n\nUser Question: " ++ s.question) := by
  have hperm : sendQuestionDisabled d s = false := by
    simp [sendQuestionDisabled, hd, hf]
  refine ⟨_, sendQuestion_fst_eq d c cid s hperm, ?_⟩
  have hq : questionContentOf s =
      "File: " ++ f.filename ++ "\n\n" ++ f.full_content ++
        "\n\nUser Question: " ++ s.question := by
    simp [questionContentOf, hf]
  cases hb : s.base64Image with
  | none => simp [questionTestOf, textOfContent, hb, hq]
  | some img =>
      rcases eq_or_ne img "" with h | h <;>
        simp [questionTestOf, textOfContent, hb, hq, h]

/-- C1 witness: with filename `a.txt`, full text `hello` and draft
`what is this?`, the assembled text is the exact expected string. -/
theorem sendQuestion_assembles_file_text_witness :
    ∃ call, (sendQuestion false false none sFile).1 = some call ∧
      textOfContent call.payload =
        some "File: a.txt\n\nhello\n\nUser Question: what is this?" := by
  obtain ⟨call, h1, h2⟩ :=
    sendQuestion_assembles_file_text false false none sFile
      { filename := "a.txt", display_summary := "sum", full_content := "hello" }
      rfl rfl
  exact ⟨call, h1, h2.trans (by decide)⟩

/-- C2: when the component is disabled, or the draft trims to empty with
no document attached (regardless of image state), compose-and-send is a
no-op in both revisions: no dispatch and an unchanged state. -/
theorem sendQuestion_refuses_noop (d c : Bool) (cid : Option String) (s : QIState)
    (h : d = true ∨ (jsTrim s.question = "" ∧ s.uploadedFile = none)) :
    sendQuestion d c cid s = (none, s) ∧ sendQuestionV2 d c cid s = (none, s) := by
  have hg : sendQuestionDisabled d s = true := by
    rcases h with h | ⟨h1, h2⟩
    · simp [sendQuestionDisabled, h]
    · simp [sendQuestionDisabled, h1, h2]
  constructor <;> simp [sendQuestion, sendQuestionV2, hg]

/-- C2 witness: with blank draft, no document, an attached image and a
stale error, send is a no-op in both revisions. -/
theorem sendQuestion_refuses_noop_witness :
    sendQuestion false false none sBlank = (none, sBlank) ∧
      sendQuestionV2 false false none sBlank = (none, sBlank) :=
  sendQuestion_refuses_noop false false none sBlank (Or.inr ⟨by decide, rfl⟩)

/-- C3 counterexample: a permitted send whose attached image is the
empty string dispatches the assembled text as a plain string — the
ternary tests the image for truthiness — contradicting the claim that an
attached image always yields the two-element parts payload. -/
theorem sendQuestion_empty_image_counterexample :
    (sendQuestion false false none sImgEmpty).1 =
      some { payload := MessageContent.str "hi", conversationArg := none } := by
  decide

/-- C3 amended: when send is permitted, a truthy (non-empty) attached
image yields the ordered two-element parts payload, text part first;
when the image is absent or the empty string, the payload is the
assembled text alone. -/
theorem sendQuestion_payload_shape (d c : Bool) (cid : Option String)
    (s : QIState) (img : String) (hperm : sendQuestionDisabled d s = false) :
    (s.base64Image = some img → img ≠ "" →
      ∃ call, (sendQuestion d c cid s).1 = some call ∧
        call.payload = MessageContent.parts
          [ContentPart.text (questionContentOf s), ContentPart.image_url img]) ∧
    ((s.base64Image = none ∨ s.base64Image = some "") →
      ∃ call, (sendQuestion d c cid s).1 = some call ∧
        call.payload = MessageContent.str (questionContentOf s)) := by
  constructor
  · intro hb hne
    refine ⟨_, sendQuestion_fst_eq d c cid s hperm, ?_⟩
    simp [questionTestOf, hb, hne]
  · intro hb
    refine ⟨_, sendQuestion_fst_eq d c cid s hperm, ?_⟩
    rcases hb with hb | hb <;> simp [questionTestOf, hb]

/-- C3 witness: with the non-empty attached image of `sImg`, the payload
is the two-element parts array, text part first. -/
theorem sendQuestion_payload_shape_witness :
    ∃ call, (sendQuestion false false none sImg).1 = some call ∧
      call.payload = MessageContent.parts
        [ContentPart.text "hi", ContentPart.image_url "data:image"] := by
  obtain ⟨call, h1, h2⟩ :=
    (sendQuestion_payload_shape false false none sImg "data:image" (by decide)).1
      rfl (by decide)
  exact ⟨call, h1, h2.trans (by decide)⟩

/-- C4 counterexample: with the conversation identifier supplied as the
empty string and send permitted, the callback receives only one argument
(`conversationArg = none`), contradicting the claim that a supplied
identifier is always passed as a second argument. -/
theorem sendQuestion_empty_id_counterexample :
    (sendQuestion false false (some "") sPlain).1 =
      some { payload := MessageContent.str " hi ", conversationArg := none } := by
  decide

/-- C4 amended: when send is permitted, the callback receives the
identifier as a second argument exactly when the supplied identifier is
truthy (present and non-empty); when it is absent or empty, the callback
receives the payload alone. -/
theorem sendQuestion_dispatch_arity (d c : Bool) (cid : Option String)
    (s : QIState) (hperm : sendQuestionDisabled d s = false) :
    ∃ call, (sendQuestion d c cid s).1 = some call ∧
      call.conversationArg = if jsTruthyStr cid then cid else none :=
  ⟨_, sendQuestion_fst_eq d c cid s hperm, rfl⟩

/-- C4 witness: a non-empty supplied identifier is passed through as the
second argument. -/
theorem sendQuestion_dispatch_arity_witness :
    ∃ call, (sendQuestion false false (some "conv1") sPlain).1 = some call ∧
      call.conversationArg = some "conv1" := by
  obtain ⟨call, h1, h2⟩ :=
    sendQuestion_dispatch_arity false false (some "conv1") sPlain (by decide)
  exact ⟨call, h1, h2.trans (by decide)⟩

/-- C5: when send is permitted and clear-on-send is configured, the same
step that dispatches the call also resets the draft text to empty and the
attached document to absent in the resulting state. -/
theorem sendQuestion_clear_on_send (d : Bool) (cid : Option String)
    (s : QIState) (hperm : sendQuestionDisabled d s = false) :
    ∃ call, sendQuestion d true cid s =
      (some call,
        { s with question := "", uploadedFile := none, base64Image := none }) := by
  have h1 := sendQuestion_fst_eq d true cid s hperm
  have h2 : (sendQuestion d true cid s).2 =
      { s with question := "", uploadedFile := none, base64Image := none } := by
    rw [sendQuestion_snd_eq d true cid s hperm]
    exact if_pos rfl
  exact ⟨_, Prod.ext h1 h2⟩

/-- C5 witness: a concrete permitted send with clear-on-send leaves empty
draft text and no attached document. -/
theorem sendQuestion_clear_on_send_witness :
    ∃ call, sendQuestion false true none sPlain =
      (some call,
        { sPlain with question := "", uploadedFile := none, base64Image := none }) :=
  sendQuestion_clear_on_send false none sPlain (by decide)

/-- C6: for every draft whose trimmed form is non-empty, with no document
and no image attached, the dispatched payload is the raw draft text
exactly as typed. -/
theorem sendQuestion_raw_draft_payload (d c : Bool) (cid : Option String)
    (s : QIState) (hd : d = false) (ht : ¬ jsTrim s.question = "")
    (hf : s.uploadedFile = none) (hi : s.base64Image = none) :
    ∃ call, (sendQuestion d c cid s).1 = some call ∧
      call.payload = MessageContent.str s.question := by
  have hperm : sendQuestionDisabled d s = false := by
    simp [sendQuestionDisabled, hd, hf, ht]
  refine ⟨_, sendQuestion_fst_eq d c cid s hperm, ?_⟩
  simp [questionTestOf, questionContentOf, hf, hi]

/-- C6 witness: the untrimmed draft `" hi "` is transmitted verbatim. -/
theorem sendQuestion_raw_draft_payload_witness :
    ∃ call, (sendQuestion false false none sPlain).1 = some call ∧
      call.payload = MessageContent.str " hi " := by
  obtain ⟨call, h1, h2⟩ :=
    sendQuestion_raw_draft_payload false false none sPlain rfl (by decide) rfl rfl
  exact ⟨call, h1, h2.trans (by decide)⟩

/-- C7: a failed document upload stores the failure's message (or the
fixed fallback for a non-`Error` value) into the upload error, ends with
`isUploading = false`, and leaves any previously attached document
untouched. -/
theorem handleFileUpload_failure_effects (e : JsError) (s : QIState) :
    (handleFileUploadFinish (Except.error e) s).uploadError =
        some (match e with
          | JsError.errorObj m => m
          | JsError.nonError => "Document processing failed") ∧
      (handleFileUploadFinish (Except.error e) s).isUploading = false ∧
      (handleFileUploadFinish (Except.error e) s).uploadedFile = s.uploadedFile := by
  refine ⟨?_, rfl, rfl⟩
  cases e <;> rfl

/-- C8: an attach-document call with a file present sets
`isUploading = true` and clears the upload error before the external
collaborator is invoked, and along every operation step the upload error
goes from set to cleared only at such an upload start. -/
theorem uploadError_clear_policy (d c : Bool) (cid : Option String) :
    (∀ s : QIState,
        (handleFileUploadStart true s).1.isUploading = true ∧
        (handleFileUploadStart true s).1.uploadError = none ∧
        (handleFileUploadStart true s).2 = true) ∧
    (∀ (op : Op) (s : QIState) (e : String),
        s.uploadError = some e →
        (step d c cid op s).uploadError = none →
        op = Op.uploadStart true) := by
  constructor
  · intro s; exact ⟨rfl, rfl, rfl⟩
  · intro op s e h1 h2
    cases op with
    | edit v => simp [step, onQuestionChange, h1] at h2
    | attachImage f =>
        rcases f with _ | r
        · simp [step, handleImageUpload, h1] at h2
        · rcases r with r | r <;>
            simp [step, handleImageUpload, convertToBase64, h1] at h2
    | uploadStart fp =>
        cases fp with
        | true => rfl
        | false => simp [step, handleFileUploadStart, h1] at h2
    | uploadFinish r =>
        rcases r with r | r <;>
          simp [step, handleFileUploadFinish, h1] at h2
    | send =>
        rw [step, sendQuestion_preserves_uploadError, h1] at h2
        exact absurd h2 (by simp)

/-- C8 witness: starting an upload on a state with a set error clears it,
with `isUploading = true` and the collaborator invoked. -/
theorem uploadError_clear_policy_witness :
    Op.uploadStart true = Op.uploadStart true ∧
      (handleFileUploadStart true sErr).1.isUploading = true ∧
      (handleFileUploadStart true sErr).1.uploadError = none ∧
      (handleFileUploadStart true sErr).2 = true :=
  ⟨(uploadError_clear_policy false false none).2 (Op.uploadStart true) sErr "boom"
      rfl rfl,
    (uploadError_clear_policy false false none).1 sErr⟩

/-- C9: when send is permitted and the supplied conversation identifier is
the empty string, the callback is invoked with one argument only: the
dispatch branch tests the identifier's truthiness, so an empty string is
dropped. -/
theorem sendQuestion_empty_id_one_arg (d c : Bool) (s : QIState)
    (hperm : sendQuestionDisabled d s = false) :
    ∃ call, (sendQuestion d c (some "") s).1 = some call ∧
      call.conversationArg = none :=
  ⟨_, sendQuestion_fst_eq d c (some "") s hperm, rfl⟩

/-- C9 witness: a concrete permitted send with an empty-string identifier
dispatches with one argument. -/
theorem sendQuestion_empty_id_one_arg_witness :
    ∃ call, (sendQuestion false false (some "") sImg).1 = some call ∧
      call.conversationArg = none :=
  sendQuestion_empty_id_one_arg false false sImg (by decide)

/-- C10: whenever no image is attached, the two revisions of
compose-and-send agree completely: same dispatch (payload and argument
count) and same post-state, for every configuration. -/
theorem sendQuestion_revisions_agree (d c : Bool) (cid : Option String)
    (s : QIState) (h : s.base64Image = none) :
    sendQuestion d c cid s = sendQuestionV2 d c cid s := by
  obtain ⟨q, img, up, err, uf⟩ := s
  change img = none at h
  subst h
  by_cases hg : sendQuestionDisabled d ⟨q, none, up, err, uf⟩ = true
  · simp [sendQuestion, sendQuestionV2, hg]
  · rw [Bool.not_eq_true] at hg
    simp only [sendQuestion, sendQuestionV2, questionTestOf, hg,
      Bool.false_eq_true, if_false]

/-- C10 witness: the two revisions coincide on a concrete no-image send
with clear-on-send and a conversation identifier. -/
theorem sendQuestion_revisions_agree_witness :
    sendQuestion false true (some "c1") sPlain =
      sendQuestionV2 false true (some "c1") sPlain :=
  sendQuestion_revisions_agree false true (some "c1") sPlain rfl

end QuestionInput
